import Mathlib

/-!
The `config` package of rabbitmq-cli-consumer.

A shallow embedding of `config/config.go` and of the parts of Go's standard
library the package calls (`fmt.Sprintf("%s:%s", ..)` and `net/url`'s
`URL.String`), followed by theorems about the accessors of `Config` and about
the two loaders.

Conventions of the embedding:

* a Go `string` is a Lean `String` (well-formed UTF-8 text); where the library
  works on the bytes of a string (`net/url`'s escaping) the model works on the
  UTF-8 bytes of the text, each byte a `Nat` below 256;
* a Go `int` is a Lean `Int`; the one narrowing conversion, `int32(..)`, is
  written out with an explicit reduction modulo `2^32`;
* a method with a pointer receiver that writes to the receiver returns the
  new state next to its result;
* a Go result pair `(*Config, error)` is a pair of options, `none` for `nil`.
-/

/-! ## Go builtins -/

/-- Go's builtin `len` on a string: the number of bytes. -/
def len (s : String) : Nat := s.utf8ByteSize

/-- The bytes of a Go string, each as a natural number below 256. -/
def bytes (s : String) : List Nat :=
  s.data.flatMap fun c => (String.utf8EncodeChar c).map UInt8.toNat

/-- Go's `string(t)` for a byte slice `t` holding ASCII bytes only. -/
def ofAsciiBytes (t : List Nat) : String := String.mk (t.map Char.ofNat)

/-- The conversion `int32(x)` of a Go `int`: the low 32 bits of `x`, read as a
two's-complement number. -/
def int32 (x : Int) : Int :=
  let m := x % 2 ^ 32
  if m < 2 ^ 31 then m else m - 2 ^ 32

/-! ## The part of `net/url` used by `AmqpUrl` -/

namespace url

/-- The escaping modes of `net/url` (`type encoding int`). -/
inductive encoding where
  | encodePath
  | encodePathSegment
  | encodeHost
  | encodeZone
  | encodeUserPassword
  | encodeQueryComponent
  | encodeFragment
  deriving DecidableEq, Repr

open encoding

/-- The constant `upperhex = "0123456789ABCDEF"`, indexed by a nibble. -/
def upperhex (n : Nat) : Nat := ("0123456789ABCDEF".data.getD n '0').toNat

/-- Go's `shouldEscape(c, mode)`: whether byte `c` must be percent-encoded when
it appears in the part of a URL that `mode` names. -/
def shouldEscape (c : Nat) (mode : encoding) : Bool :=
  -- §2.3 unreserved characters (alphanum)
  if ('a'.toNat ≤ c ∧ c ≤ 'z'.toNat) ∨ ('A'.toNat ≤ c ∧ c ≤ 'Z'.toNat)
      ∨ ('0'.toNat ≤ c ∧ c ≤ '9'.toNat) then false
  -- §3.2.2: sub-delims, colon, brackets, angle brackets and the double quote (34)
  -- are allowed in a host; 39 is the apostrophe
  else if (mode = encodeHost ∨ mode = encodeZone) ∧
      c ∈ ['!'.toNat, '$'.toNat, '&'.toNat, 39, '('.toNat, ')'.toNat, '*'.toNat,
        '+'.toNat, ','.toNat, ';'.toNat, '='.toNat, ':'.toNat, '['.toNat,
        ']'.toNat, '<'.toNat, '>'.toNat, 34] then false
  -- §2.3 unreserved characters (mark)
  else if c ∈ ['-'.toNat, '_'.toNat, '.'.toNat, '~'.toNat] then false
  -- §2.2 reserved characters
  else if c ∈ ['$'.toNat, '&'.toNat, '+'.toNat, ','.toNat, '/'.toNat,
      ':'.toNat, ';'.toNat, '='.toNat, '?'.toNat, '@'.toNat] then
    match mode with
    | encodePath => c = '?'.toNat
    | encodePathSegment =>
      c = '/'.toNat ∨ c = ';'.toNat ∨ c = ','.toNat ∨ c = '?'.toNat
    | encodeUserPassword =>
      c = '@'.toNat ∨ c = '/'.toNat ∨ c = '?'.toNat ∨ c = ':'.toNat
    | encodeQueryComponent => true
    | encodeFragment => false
    | _ => true
  else if mode = encodeFragment ∧
      c ∈ ['!'.toNat, '('.toNat, ')'.toNat, '*'.toNat] then false
  else true

/-- The second loop of Go's `escape`: the output bytes for one input byte. -/
def escapeByte (c : Nat) (mode : encoding) : List Nat :=
  if c = ' '.toNat ∧ mode = encodeQueryComponent then ['+'.toNat]
  else if shouldEscape c mode then ['%'.toNat, upperhex (c / 16), upperhex (c % 16)]
  else [c]

/-- Go's `escape(s, mode)`: the string itself when no byte needs escaping
(`spaceCount == 0 && hexCount == 0`), otherwise the byte-by-byte encoding. -/
def escape (s : String) (mode : encoding) : String :=
  if (bytes s).all (fun c => !shouldEscape c mode) then s
  else ofAsciiBytes ((bytes s).flatMap fun c => escapeByte c mode)

/-- Go's `url.Userinfo`: a username and an optional password. -/
structure Userinfo where
  username : String
  password : String
  passwordSet : Bool
  deriving DecidableEq, Repr

/-- Go's `url.User(username)`. -/
def User (username : String) : Userinfo := ⟨username, "", false⟩

/-- Go's `url.UserPassword(username, password)`. -/
def UserPassword (username password : String) : Userinfo :=
  ⟨username, password, true⟩

/-- Go's `(*Userinfo).String`, for a non-nil receiver. -/
def Userinfo.string (u : Userinfo) : String :=
  let s := escape u.username encodeUserPassword
  if u.passwordSet then s ++ ":" ++ escape u.password encodeUserPassword else s

/-- Go's `url.URL`, with the fields `AmqpUrl` sets. The fields it leaves at
their zero value (`Opaque`, `RawPath`, `OmitHost`, `ForceQuery`, `RawQuery`,
`Fragment`, `RawFragment`) are not represented. -/
structure URL where
  Scheme : String
  User : Option Userinfo
  Host : String
  Path : String
  deriving DecidableEq, Repr

/-- Go's `(*URL).EscapedPath` when `RawPath` is empty. -/
def URL.EscapedPath (u : URL) : String :=
  if u.Path = "*" then "*" else escape u.Path encodePath

/-- The first path segment contains a colon:
`segment, _, _ := strings.Cut(path, "/"); strings.Contains(segment, ":")`. -/
def firstSegmentHasColon (path : String) : Bool :=
  (path.data.takeWhile (· ≠ '/')).contains ':'

/-- Go's `(*URL).String` when `Opaque`, `RawPath`, `RawQuery` and `Fragment`
are empty and `OmitHost` and `ForceQuery` are false. The buffer `buf` is
threaded through the successive writes. -/
def URL.string (u : URL) : String :=
  let buf := ""
  let buf := if u.Scheme ≠ "" then buf ++ u.Scheme ++ ":" else buf
  let buf :=
    if u.Scheme ≠ "" ∨ u.Host ≠ "" ∨ u.User.isSome then
      let buf :=
        if u.Host ≠ "" ∨ u.Path ≠ "" ∨ u.User.isSome then buf ++ "//" else buf
      let buf :=
        match u.User with
        | some ui => buf ++ ui.string ++ "@"
        | none => buf
      if u.Host ≠ "" then buf ++ escape u.Host encodeHost else buf
    else buf
  let path := u.EscapedPath
  let buf :=
    if path ≠ "" ∧ path.data.head? ≠ some '/' ∧ u.Host ≠ "" then buf ++ "/"
    else buf
  let buf :=
    if len buf = 0 ∧ firstSegmentHasColon path then buf ++ "./" else buf
  buf ++ path

end url

/-! ## The configuration structure -/

/-- The `RabbitMq` section of `Config`. -/
structure RabbitMqSection where
  AmqpUrl : String
  Host : String
  Username : String
  Password : String
  Port : String
  Vhost : String
  Queue : String
  Compression : Bool
  Onfailure : Int
  deriving DecidableEq, Repr

/-- The `Prefetch` section of `Config`. -/
structure PrefetchSection where
  Count : Int
  Global : Bool
  deriving DecidableEq, Repr

/-- The `QueueSettings` section of `Config`. -/
structure QueueSettingsSection where
  Routingkey : String
  MessageTTL : Int
  DeadLetterExchange : String
  DeadLetterRoutingKey : String
  deriving DecidableEq, Repr

/-- The `Exchange` section of `Config`. -/
structure ExchangeSection where
  Name : String
  Autodelete : Bool
  /-- The field `Type` of the Go struct (`Type` is reserved in Lean). -/
  Type_ : String
  Durable : Bool
  deriving DecidableEq, Repr

/-- The `Logs` section of `Config`. -/
structure LogsSection where
  Error : String
  Info : String
  deriving DecidableEq, Repr

/-- The `Config` struct. -/
structure Config where
  RabbitMq : RabbitMqSection
  Prefetch : PrefetchSection
  QueueSettings : QueueSettingsSection
  Exchange : ExchangeSection
  Logs : LogsSection
  deriving DecidableEq, Repr

/-- The zero value `Config{}`. -/
def Config.zero : Config :=
  { RabbitMq := ⟨"", "", "", "", "", "", "", false, 0⟩
    Prefetch := ⟨0, false⟩
    QueueSettings := ⟨"", 0, "", ""⟩
    Exchange := ⟨"", false, "", false⟩
    Logs := ⟨"", ""⟩ }

/-! ## Accessors -/

/-- Go's `transformToStringValue`. -/
def transformToStringValue (val : String) : String :=
  if val = "<empty>" then "" else val

/-- The method `(c *Config) AmqpUrl()`: the returned string and the receiver
after the call. -/
def Config.AmqpUrl (c : Config) : String × Config :=
  if len c.RabbitMq.AmqpUrl > 0 then (c.RabbitMq.AmqpUrl, c)
  else
    let host := c.RabbitMq.Host
    let host := if len c.RabbitMq.Port > 0 then host ++ ":" ++ c.RabbitMq.Port else host
    let uri : url.URL :=
      { Scheme := "amqp", User := none, Host := host, Path := c.RabbitMq.Vhost }
    let uri :=
      if len c.RabbitMq.Username > 0 then
        if len c.RabbitMq.Password > 0 then
          { uri with User := some (url.UserPassword c.RabbitMq.Username c.RabbitMq.Password) }
        else
          { uri with User := some (url.User c.RabbitMq.Username) }
      else uri
    let c := { c with RabbitMq := { c.RabbitMq with AmqpUrl := uri.string } }
    (c.RabbitMq.AmqpUrl, c)

/-- The method `HasExchange`. -/
def Config.HasExchange (c : Config) : Bool := c.Exchange.Name ≠ ""

/-- The method `ExchangeName`. -/
def Config.ExchangeName (c : Config) : String :=
  transformToStringValue c.Exchange.Name

/-- The method `ExchangeType`. -/
def Config.ExchangeType (c : Config) : String :=
  if "" = c.Exchange.Name ∧ "" = c.Exchange.Type_ ∧ !c.Exchange.Durable
      ∧ !c.Exchange.Autodelete then "direct"
  else c.Exchange.Type_

/-- The method `PrefetchCount`. -/
def Config.PrefetchCount (c : Config) : Int :=
  if c.Prefetch.Count = 0 then 3 else c.Prefetch.Count

/-- The method `HasMessageTTL`. -/
def Config.HasMessageTTL (c : Config) : Bool := c.QueueSettings.MessageTTL > 0

/-- The method `MessageTTL`. -/
def Config.MessageTTL (c : Config) : Int := int32 c.QueueSettings.MessageTTL

/-- The method `RoutingKey`. -/
def Config.RoutingKey (c : Config) : String :=
  transformToStringValue c.QueueSettings.Routingkey

/-- The method `HasDeadLetterExchange`. -/
def Config.HasDeadLetterExchange (c : Config) : Bool :=
  c.QueueSettings.DeadLetterExchange ≠ ""

/-- The method `DeadLetterExchange`. -/
def Config.DeadLetterExchange (c : Config) : String :=
  transformToStringValue c.QueueSettings.DeadLetterExchange

/-- The method `HasDeadLetterRouting`. -/
def Config.HasDeadLetterRouting (c : Config) : Bool :=
  c.QueueSettings.DeadLetterRoutingKey ≠ ""

/-- The method `DeadLetterRoutingKey`. -/
def Config.DeadLetterRoutingKey (c : Config) : String :=
  transformToStringValue c.QueueSettings.DeadLetterRoutingKey

/-! ## Loaders -/

/-- A Go `error` value. -/
structure Error where
  msg : String
  deriving DecidableEq, Repr

/-- The library functions the loaders call, as parameters of the model:
`filepath.IsAbs`, `filepath.Abs` (which consults the working directory and may
fail), and gcfg's `ReadFileInto` and `ReadStringInto`, which fill the config
they are handed and return an error or `nil`. -/
structure Env where
  IsAbs : String → Bool
  Abs : String → String × Option Error
  ReadFileInto : Config → String → Config × Option Error
  ReadStringInto : Config → String → Config × Option Error

/-- What a loader returns, `(*Config, error)`, together with the paths it
passed to `gcfg.ReadFileInto`, in order. -/
structure LoadResult where
  cfg : Option Config
  err : Option Error
  reads : List String
  deriving DecidableEq, Repr

/-- The function `LoadAndParse`. Inside the `if` block, `location, err :=
filepath.Abs(location)` declares two new variables local to the block (here
`inner` and `err`), and `location = location` assigns the inner one to itself;
the parameter `location` is the one `gcfg.ReadFileInto` receives. -/
def LoadAndParse (env : Env) (location : String) : LoadResult :=
  let early : Option Error :=
    if !env.IsAbs location then
      let (inner, err) := env.Abs location
      if err.isSome then err
      else
        let _inner := inner
        none
    else none
  match early with
  | some err => ⟨none, some err, []⟩
  | none =>
    let cfg := Config.zero
    let (cfg, err) := env.ReadFileInto cfg location
    match err with
    | some err => ⟨none, some err, [location]⟩
    | none => ⟨some cfg, none, [location]⟩

/-- The function `CreateFromString`. -/
def CreateFromString (env : Env) (data : String) : LoadResult :=
  let cfg := Config.zero
  let (cfg, err) := env.ReadStringInto cfg data
  match err with
  | some err => ⟨none, some err, []⟩
  | none => ⟨some cfg, none, []⟩

/-! ## Vocabulary of the specification -/

/-- A string of ASCII letters and digits only. -/
def alnum (s : String) : Bool := s.data.all Char.isAlphanum

/-- The credentials segment as the specification words it: user and password
when both are set, the user alone when only it is set, nothing otherwise. -/
def specCred (username password : String) : String :=
  if username ≠ "" ∧ password ≠ "" then username ++ ":" ++ password ++ "@"
  else if username ≠ "" then username ++ "@"
  else ""

/-- The port segment as the specification words it: omitted for an empty
port. -/
def specPortSeg (port : String) : String :=
  if port = "" then "" else ":" ++ port

/-- A sample configuration: the zero value with the connection fields of the
specification's example. -/
def sampleConfig : Config :=
  { Config.zero with
    RabbitMq :=
      { Config.zero.RabbitMq with
        Host := "broker", Port := "5672", Vhost := "/app", Username := "u", Password := "p" } }

/-- A sample environment: a working directory `/srv`, on a Unix file system
that holds one file, `/srv/conf/app.ini`, parsed into `sampleConfig`. -/
def sampleEnv : Env where
  IsAbs := fun p => p.data.head? = some '/'
  Abs := fun p => if p.data.head? = some '/' then (p, none) else ("/srv/" ++ p, none)
  ReadFileInto := fun cfg p =>
    if p = "/srv/conf/app.ini" ∨ p = "conf/app.ini" then (sampleConfig, none)
    else (cfg, some ⟨"open " ++ p ++ ": no such file or directory"⟩)
  ReadStringInto := fun cfg data =>
    if data = "" then (cfg, none) else (cfg, some ⟨"parse failure"⟩)

/-! ## Lemmas on the builtins -/

theorem len_pos_iff (s : String) : 0 < len s ↔ s ≠ "" := by
  rcases s with ⟨cs⟩
  cases cs with
  | nil => simp [len, String.utf8ByteSize, String.utf8ByteSize.go]
  | cons a as =>
    have := Char.utf8Size_pos a
    simp [len, String.utf8ByteSize, String.utf8ByteSize.go, String.ext_iff]
    omega

theorem len_eq_zero_iff (s : String) : len s = 0 ↔ s = "" := by
  have := len_pos_iff s
  constructor
  · intro h
    by_contra hne
    have := this.2 hne
    omega
  · intro h
    subst h
    rfl

theorem append_eq_empty_iff (a b : String) : a ++ b = "" ↔ a = "" ∧ b = "" := by
  simp [String.ext_iff, String.data_append]

theorem utf8EncodeChar_ascii (c : Char) (h : c.toNat < 128) :
    (String.utf8EncodeChar c).map UInt8.toNat = [c.toNat] := by
  have hc : c.toNat = c.val.toNat := rfl
  have h1 : c.val ≤ 0x7f := by
    show c.val.toNat ≤ 127
    omega
  simp only [String.utf8EncodeChar, h1, if_true, List.map]
  simp [UInt32.toUInt8, Nat.toUInt8, UInt8.ofNat, UInt8.toNat, Char.toNat]
  omega

/-- The bytes of a text of ASCII characters are the codes of its characters. -/
theorem mem_bytes_of_ascii (s : String) (h : ∀ c ∈ s.data, c.toNat < 128) (b : Nat)
    (hb : b ∈ bytes s) : ∃ c ∈ s.data, b = c.toNat := by
  simp only [bytes, List.mem_flatMap] at hb
  obtain ⟨c, hc, hbc⟩ := hb
  rw [utf8EncodeChar_ascii c (h c hc)] at hbc
  exact ⟨c, hc, by simpa using hbc⟩

namespace url
open encoding

/-- Go's `escape` leaves a text alone when none of its characters needs
escaping. -/
theorem escape_eq_self (s : String) (mode : encoding)
    (h : ∀ c ∈ s.data, c.toNat < 128 ∧ shouldEscape c.toNat mode = false) :
    escape s mode = s := by
  unfold escape
  rw [if_pos]
  rw [List.all_eq_true]
  intro b hb
  obtain ⟨c, hc, rfl⟩ := mem_bytes_of_ascii s (fun c hc => (h c hc).1) b hb
  simp [(h c hc).2]

/-- An ASCII letter or digit, as a code point. -/
theorem isAlphanum_code (c : Char) (h : c.isAlphanum = true) :
    (65 ≤ c.toNat ∧ c.toNat ≤ 90) ∨ (97 ≤ c.toNat ∧ c.toNat ≤ 122)
      ∨ (48 ≤ c.toNat ∧ c.toNat ≤ 57) := by
  have e : c.val.toBitVec.toNat = c.toNat := rfl
  have e1 : (UInt32.toBitVec 65).toNat = 65 := rfl
  have e2 : (UInt32.toBitVec 90).toNat = 90 := rfl
  have e3 : (UInt32.toBitVec 97).toNat = 97 := rfl
  have e4 : (UInt32.toBitVec 122).toNat = 122 := rfl
  have e5 : (UInt32.toBitVec 48).toNat = 48 := rfl
  have e6 : (UInt32.toBitVec 57).toNat = 57 := rfl
  simp only [Char.isAlphanum, Char.isAlpha, Char.isUpper, Char.isLower, Char.isDigit,
    Bool.or_eq_true, Bool.and_eq_true, decide_eq_true_eq, UInt32.le_def, ge_iff_le,
    BitVec.le_def, e, e1, e2, e3, e4, e5, e6] at h
  omega

theorem shouldEscape_alnum (c : Char) (h : c.isAlphanum = true) (mode : encoding) :
    c.toNat < 128 ∧ shouldEscape c.toNat mode = false := by
  have := isAlphanum_code c h
  refine ⟨by omega, ?_⟩
  unfold shouldEscape
  rw [if_pos]
  have a1 : 'a'.toNat = 97 := rfl
  have a2 : 'z'.toNat = 122 := rfl
  have a3 : 'A'.toNat = 65 := rfl
  have a4 : 'Z'.toNat = 90 := rfl
  have a5 : '0'.toNat = 48 := rfl
  have a6 : '9'.toNat = 57 := rfl
  rw [a1, a2, a3, a4, a5, a6]
  omega

theorem escape_alnum (s : String) (h : alnum s = true) (mode : encoding) :
    escape s mode = s := by
  apply escape_eq_self
  intro c hc
  exact shouldEscape_alnum c (by simpa [alnum] using (List.all_eq_true.1 h) c hc) mode

end url

namespace url
open encoding

/-- The value of `URL.string` on a URL with a non-empty scheme, as one
concatenation: the buffer is not empty once the scheme is written, so the
dot-segment guard does not fire. -/
theorem URL.string_of_scheme (sch : String) (user : Option Userinfo) (host path : String)
    (hs : sch ≠ "") :
    URL.string ⟨sch, user, host, path⟩ =
      sch ++ ":" ++ (if host ≠ "" ∨ path ≠ "" ∨ user.isSome then "//" else "")
        ++ (match user with
            | some ui => ui.string ++ "@"
            | none => "")
        ++ (if host ≠ "" then escape host encodeHost else "")
        ++ (if URL.EscapedPath ⟨sch, user, host, path⟩ ≠ ""
              ∧ (URL.EscapedPath ⟨sch, user, host, path⟩).data.head? ≠ some '/'
              ∧ host ≠ "" then "/" else "")
        ++ URL.EscapedPath ⟨sch, user, host, path⟩ := by
  have e : ("" : String) ++ sch ++ ":" = sch ++ ":" := by simp
  have h0 : ∀ t : String, len (sch ++ ":" ++ t) ≠ 0 := by
    intro t h
    rw [len_eq_zero_iff, append_eq_empty_iff, append_eq_empty_iff] at h
    exact hs h.1.1
  have h1 : len (sch ++ ":") ≠ 0 := by
    intro h
    rw [len_eq_zero_iff, append_eq_empty_iff] at h
    exact hs h.1
  unfold URL.string
  generalize URL.EscapedPath ⟨sch, user, host, path⟩ = p
  simp only [hs, ne_eq, not_false_eq_true, true_or, if_true, e]
  generalize sch ++ ":" = a at h0 h1 ⊢
  cases user <;> by_cases hh : host = "" <;> by_cases hp : path = "" <;>
    by_cases hp0 : p = "" <;> by_cases hp1 : p.data.head? = some '/' <;>
    simp [hh, hp, hp0, hp1, h0, h1, String.append_assoc]

end url

/-! ## Lemmas on `AmqpUrl` -/

/-- With the raw field set, `AmqpUrl` returns it and leaves the receiver
alone. -/
theorem AmqpUrl_of_set (c : Config) (h : c.RabbitMq.AmqpUrl ≠ "") :
    c.AmqpUrl = (c.RabbitMq.AmqpUrl, c) := by
  unfold Config.AmqpUrl
  rw [if_pos ((len_pos_iff _).2 h)]

/-- With the raw field empty, `AmqpUrl` renders the URL built from the
connection fields, returns it and stores it in the raw field. -/
theorem AmqpUrl_of_empty (c : Config) (h : c.RabbitMq.AmqpUrl = "") :
    c.AmqpUrl =
      (url.URL.string
          ⟨"amqp",
            if c.RabbitMq.Username ≠ "" then
              if c.RabbitMq.Password ≠ "" then
                some (url.UserPassword c.RabbitMq.Username c.RabbitMq.Password)
              else some (url.User c.RabbitMq.Username)
            else none,
            if c.RabbitMq.Port ≠ "" then c.RabbitMq.Host ++ ":" ++ c.RabbitMq.Port
            else c.RabbitMq.Host,
            c.RabbitMq.Vhost⟩,
        { c with RabbitMq := { c.RabbitMq with AmqpUrl :=
            (url.URL.string
              ⟨"amqp",
                if c.RabbitMq.Username ≠ "" then
                  if c.RabbitMq.Password ≠ "" then
                    some (url.UserPassword c.RabbitMq.Username c.RabbitMq.Password)
                  else some (url.User c.RabbitMq.Username)
                else none,
                if c.RabbitMq.Port ≠ "" then c.RabbitMq.Host ++ ":" ++ c.RabbitMq.Port
                else c.RabbitMq.Host,
                c.RabbitMq.Vhost⟩) } }) := by
  have h0 : ¬ (len c.RabbitMq.AmqpUrl > 0) := by
    rw [h]
    decide
  unfold Config.AmqpUrl
  rw [if_neg h0]
  by_cases hu : c.RabbitMq.Username = "" <;> by_cases hp : c.RabbitMq.Password = "" <;>
    by_cases hq : c.RabbitMq.Port = "" <;>
    simp [hu, hp, hq, len_pos_iff, show len "" = 0 from rfl]

/-- The rendering of a URL with a non-empty scheme is not empty. -/
theorem url.URL.string_ne_empty (sch : String) (user : Option url.Userinfo)
    (host path : String) (hs : sch ≠ "") :
    url.URL.string ⟨sch, user, host, path⟩ ≠ "" := by
  rw [url.URL.string_of_scheme sch user host path hs]
  intro h
  simp only [append_eq_empty_iff] at h
  exact hs h.1.1.1.1.1.1

/-- A host made of two alphanumeric parts joined by a colon is left alone by
the host escaping. -/
theorem escape_host_port (host port : String) (hh : alnum host = true)
    (hp : alnum port = true) :
    url.escape (host ++ ":" ++ port) url.encoding.encodeHost = host ++ ":" ++ port := by
  apply url.escape_eq_self
  intro c hc
  simp only [String.data_append, List.mem_append] at hc
  rcases hc with (hc | hc) | hc
  · exact url.shouldEscape_alnum c (by simpa [alnum] using (List.all_eq_true.1 hh) c hc) _
  · have : c = ':' := by simpa using hc
    subst this
    decide
  · exact url.shouldEscape_alnum c (by simpa [alnum] using (List.all_eq_true.1 hp) c hc) _

/-- A path made of a slash and an alphanumeric name is left alone by the path
escaping. -/
theorem escape_slash_path (v : String) (hv : alnum v = true) :
    url.escape ("/" ++ v) url.encoding.encodePath = "/" ++ v := by
  apply url.escape_eq_self
  intro c hc
  simp only [String.data_append, List.mem_append] at hc
  rcases hc with hc | hc
  · have : c = '/' := by simpa using hc
    subst this
    decide
  · exact url.shouldEscape_alnum c (by simpa [alnum] using (List.all_eq_true.1 hv) c hc) _

/-- Claim C1: when the raw field `RabbitMq.AmqpUrl` is non-empty, `AmqpUrl()`
returns exactly that string, whatever the other connection fields hold, and
leaves the `Config` unchanged. -/
theorem C1_AmqpUrl_returns_raw (c : Config) (h : c.RabbitMq.AmqpUrl ≠ "") :
    c.AmqpUrl.1 = c.RabbitMq.AmqpUrl ∧ c.AmqpUrl.2 = c := by
  rw [AmqpUrl_of_set c h]
  exact ⟨rfl, rfl⟩

/-- Witness of C1: a configuration whose raw URL is set next to other
connection fields. -/
theorem C1_AmqpUrl_returns_raw_witness :
    ({ sampleConfig with RabbitMq :=
        { sampleConfig.RabbitMq with AmqpUrl := "amqp://other:5673/x" } }
      : Config).AmqpUrl.1 = "amqp://other:5673/x" :=
  (C1_AmqpUrl_returns_raw
    { sampleConfig with RabbitMq :=
        { sampleConfig.RabbitMq with AmqpUrl := "amqp://other:5673/x" } }
    (by decide)).1

/-- Claim C2: with an empty raw URL, alphanumeric `Host`, `Port`, `Username`
and `Password`, and a `Vhost` that is a slash followed by alphanumerics,
`AmqpUrl()` returns `amqp://`, the credentials segment, the host, the port
segment and the vhost, in that order. -/
theorem C2_AmqpUrl_derived (c : Config) (v : String)
    (hurl : c.RabbitMq.AmqpUrl = "")
    (hHost : alnum c.RabbitMq.Host = true) (hPort : alnum c.RabbitMq.Port = true)
    (hUser : alnum c.RabbitMq.Username = true) (hPass : alnum c.RabbitMq.Password = true)
    (hVhost : c.RabbitMq.Vhost = "/" ++ v) (hv : alnum v = true) :
    c.AmqpUrl.1 =
      "amqp://" ++ specCred c.RabbitMq.Username c.RabbitMq.Password ++ c.RabbitMq.Host
        ++ specPortSeg c.RabbitMq.Port ++ c.RabbitMq.Vhost := by
  have hpath : url.URL.EscapedPath
      ⟨"amqp",
        if c.RabbitMq.Username ≠ "" then
          if c.RabbitMq.Password ≠ "" then
            some (url.UserPassword c.RabbitMq.Username c.RabbitMq.Password)
          else some (url.User c.RabbitMq.Username)
        else none,
        if c.RabbitMq.Port ≠ "" then c.RabbitMq.Host ++ ":" ++ c.RabbitMq.Port
        else c.RabbitMq.Host,
        c.RabbitMq.Vhost⟩ = "/" ++ v := by
    have hne : ("/" ++ v : String) ≠ "*" := by
      intro h
      have := congrArg (fun s => s.data.head?) h
      simp at this
    simp only [url.URL.EscapedPath, hVhost, hne, if_false]
    exact escape_slash_path v hv
  have hvne : ("/" ++ v : String) ≠ "" := by
    intro h
    rw [append_eq_empty_iff] at h
    exact absurd h.1 (by decide)
  have hhead : ("/" ++ v : String).data.head? = some '/' := by simp
  have e0 : ("amqp" : String) ++ ":" ++ "//" = "amqp://" := by decide
  have hhost : url.escape
      (if c.RabbitMq.Port ≠ "" then c.RabbitMq.Host ++ ":" ++ c.RabbitMq.Port
        else c.RabbitMq.Host) url.encoding.encodeHost =
      (if c.RabbitMq.Port ≠ "" then c.RabbitMq.Host ++ ":" ++ c.RabbitMq.Port
        else c.RabbitMq.Host) := by
    split
    · exact escape_host_port _ _ hHost hPort
    · exact url.escape_alnum _ hHost _
  rw [AmqpUrl_of_empty c hurl]
  simp only []
  rw [url.URL.string_of_scheme _ _ _ _ (by decide), hpath, hhost]
  simp only [hVhost, hvne, hhead, ne_eq, not_false_eq_true, true_or, or_true, if_true,
    not_true_eq_false, false_and, and_false, if_false, String.append_empty, e0]
  by_cases hu : c.RabbitMq.Username = "" <;> by_cases hp : c.RabbitMq.Password = "" <;>
    by_cases hq : c.RabbitMq.Port = "" <;> by_cases hh : c.RabbitMq.Host = "" <;>
    simp [hu, hp, hq, hh, specCred, specPortSeg, url.Userinfo.string, url.UserPassword,
      url.User, url.escape_alnum _ hUser, url.escape_alnum _ hPass, append_eq_empty_iff,
      String.append_assoc]

/-- Witness of C2: the two examples of the specification, with a password and
without one. -/
theorem C2_AmqpUrl_derived_witness :
    sampleConfig.AmqpUrl.1 = "amqp://u:p@broker:5672/app" ∧
    ({ sampleConfig with RabbitMq := { sampleConfig.RabbitMq with Password := "" } }
      : Config).AmqpUrl.1 = "amqp://u@broker:5672/app" :=
  ⟨C2_AmqpUrl_derived sampleConfig "app" rfl (by decide) (by decide) (by decide)
      (by decide) rfl (by decide),
    C2_AmqpUrl_derived
      { sampleConfig with RabbitMq := { sampleConfig.RabbitMq with Password := "" } }
      "app" rfl (by decide) (by decide) (by decide) (by decide) rfl (by decide)⟩

/-- Claim C3: `AmqpUrl()` is idempotent. On the state left by a first call, a
second call returns the same string and leaves that state as it is; the string
the first call returned is the one held in the raw field afterwards. -/
theorem C3_AmqpUrl_idempotent (c : Config) :
    c.AmqpUrl.2.AmqpUrl.1 = c.AmqpUrl.1 ∧ c.AmqpUrl.2.AmqpUrl.2 = c.AmqpUrl.2 ∧
      c.AmqpUrl.2.RabbitMq.AmqpUrl = c.AmqpUrl.1 := by
  by_cases h : c.RabbitMq.AmqpUrl = ""
  · have hne := url.URL.string_ne_empty "amqp"
      (if c.RabbitMq.Username ≠ "" then
          if c.RabbitMq.Password ≠ "" then
            some (url.UserPassword c.RabbitMq.Username c.RabbitMq.Password)
          else some (url.User c.RabbitMq.Username)
        else none)
      (if c.RabbitMq.Port ≠ "" then c.RabbitMq.Host ++ ":" ++ c.RabbitMq.Port
        else c.RabbitMq.Host)
      c.RabbitMq.Vhost (by decide)
    have e1 := AmqpUrl_of_empty c h
    have e3 : c.AmqpUrl.2.RabbitMq.AmqpUrl = c.AmqpUrl.1 := by rw [e1]
    have hne2 : c.AmqpUrl.2.RabbitMq.AmqpUrl ≠ "" := by
      rw [e1]
      exact hne
    rw [AmqpUrl_of_set _ hne2]
    exact ⟨e3, rfl, e3⟩
  · rw [AmqpUrl_of_set c h, AmqpUrl_of_set c h]
    exact ⟨rfl, rfl, rfl⟩

/-- Claim C4: `ExchangeType()` returns `direct` when the raw name and type are
empty and `Durable` and `Autodelete` are false, and the raw type in every other
case; in particular a durable exchange with an empty type gets the empty
string. -/
theorem C4_ExchangeType (c : Config) :
    ((c.Exchange.Name = "" ∧ c.Exchange.Type_ = "" ∧ c.Exchange.Durable = false
        ∧ c.Exchange.Autodelete = false) → c.ExchangeType = "direct") ∧
    (¬ (c.Exchange.Name = "" ∧ c.Exchange.Type_ = "" ∧ c.Exchange.Durable = false
        ∧ c.Exchange.Autodelete = false) → c.ExchangeType = c.Exchange.Type_) ∧
    ((c.Exchange.Type_ = "" ∧ c.Exchange.Durable = true) → c.ExchangeType = "") := by
  unfold Config.ExchangeType
  refine ⟨?_, ?_, ?_⟩
  · rintro ⟨h1, h2, h3, h4⟩
    rw [if_pos]
    rw [h3, h4]
    exact ⟨h1.symm, h2.symm, rfl, rfl⟩
  · intro h
    rw [if_neg]
    rintro ⟨h1, h2, h3, h4⟩
    apply h
    refine ⟨h1.symm, h2.symm, ?_, ?_⟩
    · revert h3
      cases c.Exchange.Durable <;> simp
    · revert h4
      cases c.Exchange.Autodelete <;> simp
  · rintro ⟨h2, h3⟩
    rw [if_neg]
    · exact h2
    · rintro ⟨-, -, h, -⟩
      rw [h3] at h
      exact absurd h (by decide)

/-- Witness of C4: the zero value gets `direct`; a durable exchange with no
type gets the empty string; a configured type is returned as it is. -/
theorem C4_ExchangeType_witness :
    Config.zero.ExchangeType = "direct" ∧
    ({ Config.zero with Exchange := ⟨"", false, "", true⟩ } : Config).ExchangeType = "" ∧
    ({ Config.zero with Exchange := ⟨"logs", false, "topic", false⟩ } : Config).ExchangeType
      = "topic" :=
  ⟨(C4_ExchangeType Config.zero).1 (by decide),
    (C4_ExchangeType { Config.zero with Exchange := ⟨"", false, "", true⟩ }).2.2 (by decide),
    (C4_ExchangeType { Config.zero with Exchange := ⟨"logs", false, "topic", false⟩ }).2.1
      (by decide)⟩

/-- Claim C5: `PrefetchCount()` returns 3 when `Prefetch.Count` is 0 and the
stored count for every other value, negative ones included. -/
theorem C5_PrefetchCount (c : Config) :
    (c.Prefetch.Count = 0 → c.PrefetchCount = 3) ∧
    (c.Prefetch.Count ≠ 0 → c.PrefetchCount = c.Prefetch.Count) := by
  unfold Config.PrefetchCount
  constructor
  · intro h
    rw [if_pos h]
  · intro h
    rw [if_neg h]

/-- Witness of C5: the counts 0, 10 and -4. -/
theorem C5_PrefetchCount_witness :
    Config.zero.PrefetchCount = 3 ∧
    ({ Config.zero with Prefetch := ⟨10, false⟩ } : Config).PrefetchCount = 10 ∧
    ({ Config.zero with Prefetch := ⟨-4, false⟩ } : Config).PrefetchCount = -4 :=
  ⟨(C5_PrefetchCount Config.zero).1 (by decide),
    (C5_PrefetchCount { Config.zero with Prefetch := ⟨10, false⟩ }).2 (by decide),
    (C5_PrefetchCount { Config.zero with Prefetch := ⟨-4, false⟩ }).2 (by decide)⟩

/-- Claim C6: each of `RoutingKey()`, `DeadLetterExchange()`,
`DeadLetterRoutingKey()` and `ExchangeName()` returns the empty string when
its raw field is the literal `<empty>` and the raw field for every other
string. The accessors have value receivers and return a string only, so the
raw field is as before. -/
theorem C6_sentinel_accessors (c : Config) :
    ((c.QueueSettings.Routingkey = "<empty>" → c.RoutingKey = "") ∧
      (c.QueueSettings.Routingkey ≠ "<empty>" → c.RoutingKey = c.QueueSettings.Routingkey)) ∧
    ((c.QueueSettings.DeadLetterExchange = "<empty>" → c.DeadLetterExchange = "") ∧
      (c.QueueSettings.DeadLetterExchange ≠ "<empty>" →
        c.DeadLetterExchange = c.QueueSettings.DeadLetterExchange)) ∧
    ((c.QueueSettings.DeadLetterRoutingKey = "<empty>" → c.DeadLetterRoutingKey = "") ∧
      (c.QueueSettings.DeadLetterRoutingKey ≠ "<empty>" →
        c.DeadLetterRoutingKey = c.QueueSettings.DeadLetterRoutingKey)) ∧
    ((c.Exchange.Name = "<empty>" → c.ExchangeName = "") ∧
      (c.Exchange.Name ≠ "<empty>" → c.ExchangeName = c.Exchange.Name)) := by
  unfold Config.RoutingKey Config.DeadLetterExchange Config.DeadLetterRoutingKey
    Config.ExchangeName transformToStringValue
  refine ⟨⟨?_, ?_⟩, ⟨?_, ?_⟩, ⟨?_, ?_⟩, ⟨?_, ?_⟩⟩ <;> intro h <;>
    first
      | rw [if_pos h]
      | rw [if_neg h]

/-- Witness of C6: a configuration that holds the sentinel in two of the four
fields and ordinary names in the other two. -/
theorem C6_sentinel_accessors_witness :
    ({ Config.zero with
        QueueSettings := ⟨"<empty>", 0, "dlx", "<empty>"⟩
        Exchange := ⟨"logs", false, "", false⟩ } : Config).RoutingKey = "" ∧
    ({ Config.zero with
        QueueSettings := ⟨"<empty>", 0, "dlx", "<empty>"⟩
        Exchange := ⟨"logs", false, "", false⟩ } : Config).DeadLetterExchange = "dlx" ∧
    ({ Config.zero with
        QueueSettings := ⟨"<empty>", 0, "dlx", "<empty>"⟩
        Exchange := ⟨"logs", false, "", false⟩ } : Config).DeadLetterRoutingKey = "" ∧
    ({ Config.zero with
        QueueSettings := ⟨"<empty>", 0, "dlx", "<empty>"⟩
        Exchange := ⟨"logs", false, "", false⟩ } : Config).ExchangeName = "logs" :=
  ⟨(C6_sentinel_accessors
      { Config.zero with
        QueueSettings := ⟨"<empty>", 0, "dlx", "<empty>"⟩
        Exchange := ⟨"logs", false, "", false⟩ }).1.1 (by decide),
    (C6_sentinel_accessors
      { Config.zero with
        QueueSettings := ⟨"<empty>", 0, "dlx", "<empty>"⟩
        Exchange := ⟨"logs", false, "", false⟩ }).2.1.2 (by decide),
    (C6_sentinel_accessors
      { Config.zero with
        QueueSettings := ⟨"<empty>", 0, "dlx", "<empty>"⟩
        Exchange := ⟨"logs", false, "", false⟩ }).2.2.1.1 (by decide),
    (C6_sentinel_accessors
      { Config.zero with
        QueueSettings := ⟨"<empty>", 0, "dlx", "<empty>"⟩
        Exchange := ⟨"logs", false, "", false⟩ }).2.2.2.2 (by decide)⟩

/-- Claim C7: `MessageTTL()` is the stored value narrowed to 32 bits: it lies
in the signed 32-bit range, differs from the stored value by a multiple of
`2^32`, is the only such value, and is the stored value when that one is in
range already. -/
theorem C7_MessageTTL_narrowed (c : Config) :
    (-2 ^ 31 ≤ c.MessageTTL ∧ c.MessageTTL ≤ 2 ^ 31 - 1) ∧
    (c.MessageTTL - c.QueueSettings.MessageTTL) % 2 ^ 32 = 0 ∧
    (∀ y : Int, -2 ^ 31 ≤ y → y ≤ 2 ^ 31 - 1 →
      (y - c.QueueSettings.MessageTTL) % 2 ^ 32 = 0 → y = c.MessageTTL) ∧
    (-2 ^ 31 ≤ c.QueueSettings.MessageTTL → c.QueueSettings.MessageTTL ≤ 2 ^ 31 - 1 →
      c.MessageTTL = c.QueueSettings.MessageTTL) := by
  unfold Config.MessageTTL int32
  generalize c.QueueSettings.MessageTTL = x
  have p32 : (2 : Int) ^ 32 = 4294967296 := by norm_num
  have p31 : (2 : Int) ^ 31 = 2147483648 := by norm_num
  simp only [p32, p31]
  refine ⟨⟨?_, ?_⟩, ?_, ?_, ?_⟩
  · split <;> omega
  · split <;> omega
  · split <;> omega
  · intro y h1 h2 h3
    split <;> omega
  · intro h1 h2
    split <;> omega

/-- Witness of C7: a stored TTL in range is returned as it is, and one above
the range wraps around. -/
theorem C7_MessageTTL_narrowed_witness :
    ({ Config.zero with QueueSettings := ⟨"", 60000, "", ""⟩ } : Config).MessageTTL = 60000 ∧
    (5 : Int) = ({ Config.zero with QueueSettings := ⟨"", 2 ^ 32 + 5, "", ""⟩ }
      : Config).MessageTTL :=
  ⟨(C7_MessageTTL_narrowed { Config.zero with QueueSettings := ⟨"", 60000, "", ""⟩ }).2.2.2
      (by decide) (by decide),
    (C7_MessageTTL_narrowed
      { Config.zero with QueueSettings := ⟨"", 2 ^ 32 + 5, "", ""⟩ }).2.2.1 5
      (by decide) (by decide) (by decide)⟩

/-- Claim C8: `HasMessageTTL()` is true exactly when the stored TTL is
positive. -/
theorem C8_HasMessageTTL (c : Config) :
    c.HasMessageTTL = true ↔ c.QueueSettings.MessageTTL > 0 := by
  simp [Config.HasMessageTTL]

/-- Claim C9: each presence check is true exactly when its raw field is not
the empty string. -/
theorem C9_presence_checks (c : Config) :
    (c.HasExchange = true ↔ c.Exchange.Name ≠ "") ∧
    (c.HasDeadLetterExchange = true ↔ c.QueueSettings.DeadLetterExchange ≠ "") ∧
    (c.HasDeadLetterRouting = true ↔ c.QueueSettings.DeadLetterRoutingKey ≠ "") := by
  simp [Config.HasExchange, Config.HasDeadLetterExchange, Config.HasDeadLetterRouting]

/-- Claim C10 fails on the code. For the relative location `conf/app.ini` in
the working directory `/srv`, the resolution succeeds with `/srv/conf/app.ini`,
yet the path `LoadAndParse` hands to the file reader is the caller's
`conf/app.ini`: the resolved path lives in a variable local to the `if` block
and is dropped. -/
theorem C10_LoadAndParse_reads_unresolved_path :
    sampleEnv.IsAbs "conf/app.ini" = false ∧
    sampleEnv.Abs "conf/app.ini" = ("/srv/conf/app.ini", none) ∧
    (LoadAndParse sampleEnv "conf/app.ini").reads = ["conf/app.ini"] ∧
    (LoadAndParse sampleEnv "conf/app.ini").reads ≠ [(sampleEnv.Abs "conf/app.ini").1] := by
  decide

/-! ## Lemmas on UTF-8 bytes and on what escaping can produce -/

/-- A byte with its top bit set is not the code of an ASCII character. -/
theorem or_high_ne (x k : UInt8) (b : Nat) (hb : b < 128) (hk : k.toNat.testBit 7 = true) :
    (x ||| k).toNat ≠ b := by
  intro h
  have e : (x ||| k).toNat = x.toNat ||| k.toNat := by
    show (x.toBitVec ||| k.toBitVec).toNat = _
    rw [BitVec.toNat_or]
    rfl
  rw [e] at h
  have h7 : (x.toNat ||| k.toNat).testBit 7 = true := by
    rw [Nat.testBit_or, hk, Bool.or_true]
  rw [h] at h7
  have : b.testBit 7 = false := Nat.testBit_lt_two_pow (by omega)
  rw [this] at h7
  exact absurd h7 (by decide)

/-- In the UTF-8 encoding, a byte below 128 stands for the character with
that code and for no part of another character. -/
theorem utf8EncodeChar_low_byte (c : Char) (b : Nat) (hb : b < 128)
    (h : b ∈ (String.utf8EncodeChar c).map UInt8.toNat) : c.toNat = b := by
  by_cases h1 : c.toNat < 128
  · rw [utf8EncodeChar_ascii c h1] at h
    exact (List.mem_singleton.1 h).symm
  · exfalso
    have hc : c.toNat = c.val.toNat := rfl
    have n1 : ¬ c.val ≤ 0x7f := by
      show ¬ c.val.toNat ≤ 127
      omega
    have k1 : (0xc0 : UInt8).toNat.testBit 7 = true := by decide
    have k2 : (0x80 : UInt8).toNat.testBit 7 = true := by decide
    have k3 : (0xe0 : UInt8).toNat.testBit 7 = true := by decide
    have k4 : (0xf0 : UInt8).toNat.testBit 7 = true := by decide
    simp only [String.utf8EncodeChar, n1, if_false] at h
    split at h
    · simp only [List.map, List.mem_cons, List.mem_nil_iff, or_false] at h
      rcases h with h | h
      · exact or_high_ne _ _ b hb k1 h.symm
      · exact or_high_ne _ _ b hb k2 h.symm
    · split at h
      · simp only [List.map, List.mem_cons, List.mem_nil_iff, or_false] at h
        rcases h with h | h | h
        · exact or_high_ne _ _ b hb k3 h.symm
        · exact or_high_ne _ _ b hb k2 h.symm
        · exact or_high_ne _ _ b hb k2 h.symm
      · simp only [List.map, List.mem_cons, List.mem_nil_iff, or_false] at h
        rcases h with h | h | h | h
        · exact or_high_ne _ _ b hb k4 h.symm
        · exact or_high_ne _ _ b hb k2 h.symm
        · exact or_high_ne _ _ b hb k2 h.symm
        · exact or_high_ne _ _ b hb k2 h.symm

/-- A byte below 128 among the bytes of a text is the code of one of its
characters. -/
theorem mem_bytes_low (s : String) (b : Nat) (hb : b < 128) (h : b ∈ bytes s) :
    ∃ c ∈ s.data, c.toNat = b := by
  simp only [bytes, List.mem_flatMap] at h
  obtain ⟨c, hc, hbc⟩ := h
  exact ⟨c, hc, utf8EncodeChar_low_byte c b hb hbc⟩

/-- The character of a byte is the at sign only for byte 64. -/
theorem ofNat_eq_at (b : Nat) (h : Char.ofNat b = '@') : b = 64 := by
  by_cases hv : b.isValidChar
  · have := congrArg Char.toNat h
    simp only [Char.ofNat, hv, dif_pos] at this
    exact this
  · simp only [Char.ofNat, hv, dif_neg, not_false_eq_true] at h
    exact absurd h (by decide)

/-- No hexadecimal digit of `upperhex` is byte 64. -/
theorem url.upperhex_ne_at (n : Nat) : url.upperhex n ≠ 64 := by
  unfold url.upperhex
  by_cases hn : n < 16
  · interval_cases n <;> decide
  · rw [List.getD_eq_default _ _ (by simpa using Nat.le_of_not_lt hn)]
    decide

/-- Escaping introduces no at sign: the escaped text of a text free of at
signs is free of them, in every mode. -/
theorem url.escape_no_at (s : String) (mode : url.encoding) (h : '@' ∉ s.data) :
    '@' ∉ (url.escape s mode).data := by
  unfold url.escape
  split
  · exact h
  · intro hmem
    simp only [ofAsciiBytes, List.mem_map, List.mem_flatMap] at hmem
    obtain ⟨b, ⟨c, hc, hb⟩, hat⟩ := hmem
    have hb64 := ofNat_eq_at b hat
    subst hb64
    unfold url.escapeByte at hb
    split at hb
    · exact absurd (List.mem_singleton.1 hb) (by decide)
    · split at hb
      · simp only [List.mem_cons, List.mem_nil_iff, or_false] at hb
        rcases hb with hb | hb | hb
        · exact absurd hb (by decide)
        · exact url.upperhex_ne_at _ hb.symm
        · exact url.upperhex_ne_at _ hb.symm
      · have hc64 : c = 64 := (List.mem_singleton.1 hb).symm
        subst hc64
        obtain ⟨ch, hch, hcode⟩ := mem_bytes_low s 64 (by decide) hc
        have : ch = '@' := by
          rw [← Char.ofNat_toNat ch, hcode]
        subst this
        exact h hch

/-- Claim C11: each loader returns exactly one of a `Config` and an error,
whatever the path resolution and the parser do: with an error there is no
`Config`, and with no error the `Config` is the one the parser filled from the
zero value. -/
theorem C11_loaders_return_one (env : Env) (location data : String) :
    (((LoadAndParse env location).cfg.isSome = true ↔
        (LoadAndParse env location).err = none) ∧
      ((LoadAndParse env location).err ≠ none → (LoadAndParse env location).cfg = none) ∧
      ((LoadAndParse env location).err = none →
        (LoadAndParse env location).cfg = some (env.ReadFileInto Config.zero location).1)) ∧
    (((CreateFromString env data).cfg.isSome = true ↔
        (CreateFromString env data).err = none) ∧
      ((CreateFromString env data).err ≠ none → (CreateFromString env data).cfg = none) ∧
      ((CreateFromString env data).err = none →
        (CreateFromString env data).cfg = some (env.ReadStringInto Config.zero data).1)) := by
  constructor
  · unfold LoadAndParse
    cases hA : env.IsAbs location <;> cases hB : (env.Abs location).2 <;>
      cases hR : (env.ReadFileInto Config.zero location).2 <;> simp [hA, hB, hR]
  · unfold CreateFromString
    cases hR : (env.ReadStringInto Config.zero data).2 <;> simp [hR]

/-- Witness of C11: in the sample environment, loading the file that exists
gives a `Config` and no error, and parsing a bad text gives an error and no
`Config`. -/
theorem C11_loaders_return_one_witness :
    (LoadAndParse sampleEnv "conf/app.ini").cfg = some sampleConfig ∧
    (CreateFromString sampleEnv "[broken").cfg = none :=
  ⟨(C11_loaders_return_one sampleEnv "conf/app.ini" "[broken").1.2.2 (by decide),
    (C11_loaders_return_one sampleEnv "conf/app.ini" "[broken").2.2.1 (by decide)⟩

/-- Claim C12: no loader error is swallowed. When the resolution of a relative
location fails, `LoadAndParse` returns that error and reads no file; otherwise
it reads one file and returns the error of that read, so it returns an error
exactly when one of the two steps failed. `CreateFromString` returns the
error of the parser. -/
theorem C12_loaders_propagate_errors (env : Env) (location data : String) :
    ((env.IsAbs location = false ∧ (env.Abs location).2 ≠ none) →
      (LoadAndParse env location).err = (env.Abs location).2 ∧
        (LoadAndParse env location).reads = []) ∧
    (¬ (env.IsAbs location = false ∧ (env.Abs location).2 ≠ none) →
      (LoadAndParse env location).err = (env.ReadFileInto Config.zero location).2 ∧
        (LoadAndParse env location).reads = [location]) ∧
    ((LoadAndParse env location).err ≠ none ↔
      ((env.IsAbs location = false ∧ (env.Abs location).2 ≠ none) ∨
        (¬ (env.IsAbs location = false ∧ (env.Abs location).2 ≠ none) ∧
          (env.ReadFileInto Config.zero location).2 ≠ none))) ∧
    (CreateFromString env data).err = (env.ReadStringInto Config.zero data).2 := by
  refine ⟨?_, ?_, ?_, ?_⟩
  · unfold LoadAndParse
    cases hA : env.IsAbs location <;> cases hB : (env.Abs location).2 <;>
      cases hR : (env.ReadFileInto Config.zero location).2 <;> simp [hA, hB, hR]
  · unfold LoadAndParse
    cases hA : env.IsAbs location <;> cases hB : (env.Abs location).2 <;>
      cases hR : (env.ReadFileInto Config.zero location).2 <;> simp [hA, hB, hR]
  · unfold LoadAndParse
    cases hA : env.IsAbs location <;> cases hB : (env.Abs location).2 <;>
      cases hR : (env.ReadFileInto Config.zero location).2 <;> simp [hA, hB, hR]
  · unfold CreateFromString
    cases hR : (env.ReadStringInto Config.zero data).2 <;> simp [hR]

/-- Witness of C12: with a working directory that cannot be resolved, loading
a relative location returns the resolution error and reads nothing; in the
sample environment, loading a file that does not exist returns the error of
the read. -/
theorem C12_loaders_propagate_errors_witness :
    ((LoadAndParse { sampleEnv with Abs := fun _ => ("", some ⟨"getwd: no such directory"⟩) }
        "conf/app.ini").err = some ⟨"getwd: no such directory"⟩ ∧
      (LoadAndParse { sampleEnv with Abs := fun _ => ("", some ⟨"getwd: no such directory"⟩) }
        "conf/app.ini").reads = []) ∧
    ((LoadAndParse sampleEnv "/etc/none.ini").err =
        some ⟨"open /etc/none.ini: no such file or directory"⟩ ∧
      (LoadAndParse sampleEnv "/etc/none.ini").reads = ["/etc/none.ini"]) :=
  ⟨(C12_loaders_propagate_errors
      { sampleEnv with Abs := fun _ => ("", some ⟨"getwd: no such directory"⟩) }
      "conf/app.ini" "").1 (by decide),
    (C12_loaders_propagate_errors sampleEnv "/etc/none.ini" "").2.1 (by decide)⟩

/-- Claim C13: `AmqpUrl()` writes to `RabbitMq.AmqpUrl` only. The state after
the call is the state before it with that one field replaced, and every other
accessor returns after the call what it returned before. -/
theorem C13_AmqpUrl_frame (c : Config) :
    c.AmqpUrl.2 =
        { c with RabbitMq := { c.RabbitMq with AmqpUrl := c.AmqpUrl.2.RabbitMq.AmqpUrl } } ∧
    c.AmqpUrl.2.HasExchange = c.HasExchange ∧
    c.AmqpUrl.2.ExchangeName = c.ExchangeName ∧
    c.AmqpUrl.2.ExchangeType = c.ExchangeType ∧
    c.AmqpUrl.2.PrefetchCount = c.PrefetchCount ∧
    c.AmqpUrl.2.HasMessageTTL = c.HasMessageTTL ∧
    c.AmqpUrl.2.MessageTTL = c.MessageTTL ∧
    c.AmqpUrl.2.RoutingKey = c.RoutingKey ∧
    c.AmqpUrl.2.HasDeadLetterExchange = c.HasDeadLetterExchange ∧
    c.AmqpUrl.2.DeadLetterExchange = c.DeadLetterExchange ∧
    c.AmqpUrl.2.HasDeadLetterRouting = c.HasDeadLetterRouting ∧
    c.AmqpUrl.2.DeadLetterRoutingKey = c.DeadLetterRoutingKey := by
  by_cases h : c.RabbitMq.AmqpUrl = ""
  · rw [AmqpUrl_of_empty c h]
    exact ⟨rfl, rfl, rfl, rfl, rfl, rfl, rfl, rfl, rfl, rfl, rfl, rfl⟩
  · rw [AmqpUrl_of_set c h]
    exact ⟨rfl, rfl, rfl, rfl, rfl, rfl, rfl, rfl, rfl, rfl, rfl, rfl⟩

/-- Claim C14: with an empty `Username` the credentials are left out whatever
the `Password`. Two configurations with an empty raw URL and an empty
`Username` that differ in `Password` only get the same string, and when `Host`,
`Port` and `Vhost` hold no at sign the string holds none. -/
theorem C14_no_credentials_without_username (c : Config) (p1 p2 : String)
    (hurl : c.RabbitMq.AmqpUrl = "") (huser : c.RabbitMq.Username = "") :
    ({ c with RabbitMq := { c.RabbitMq with Password := p1 } } : Config).AmqpUrl.1 =
      ({ c with RabbitMq := { c.RabbitMq with Password := p2 } } : Config).AmqpUrl.1 ∧
    (('@' ∉ c.RabbitMq.Host.data ∧ '@' ∉ c.RabbitMq.Port.data ∧ '@' ∉ c.RabbitMq.Vhost.data) →
      '@' ∉ ({ c with RabbitMq := { c.RabbitMq with Password := p1 } }
        : Config).AmqpUrl.1.data) := by
  have key : ∀ p : String,
      ({ c with RabbitMq := { c.RabbitMq with Password := p } } : Config).AmqpUrl.1 =
        url.URL.string
          ⟨"amqp", none,
            if c.RabbitMq.Port ≠ "" then c.RabbitMq.Host ++ ":" ++ c.RabbitMq.Port
            else c.RabbitMq.Host,
            c.RabbitMq.Vhost⟩ := by
    intro p
    have e := AmqpUrl_of_empty
      ({ c with RabbitMq := { c.RabbitMq with Password := p } } : Config) hurl
    rw [e]
    simp [huser]
  refine ⟨by rw [key p1, key p2], ?_⟩
  rintro ⟨hH, hP, hV⟩
  rw [key p1, url.URL.string_of_scheme _ _ _ _ (by decide)]
  have hhost : '@' ∉ (if c.RabbitMq.Port ≠ "" then c.RabbitMq.Host ++ ":" ++ c.RabbitMq.Port
      else c.RabbitMq.Host).data := by
    split
    · simp only [String.data_append, List.mem_append, not_or]
      exact ⟨⟨hH, by decide⟩, hP⟩
    · exact hH
  generalize (if c.RabbitMq.Port ≠ "" then c.RabbitMq.Host ++ ":" ++ c.RabbitMq.Port
      else c.RabbitMq.Host) = host at hhost ⊢
  have hpath : '@' ∉ (url.URL.EscapedPath ⟨"amqp", none, host, c.RabbitMq.Vhost⟩).data := by
    unfold url.URL.EscapedPath
    split
    · decide
    · exact url.escape_no_at _ _ hV
  generalize url.URL.EscapedPath ⟨"amqp", none, host, c.RabbitMq.Vhost⟩ = path at hpath ⊢
  have happ : ∀ a b : String, '@' ∉ a.data → '@' ∉ b.data → '@' ∉ (a ++ b).data := by
    intro a b ha hb
    simp only [String.data_append, List.mem_append, not_or]
    exact ⟨ha, hb⟩
  refine happ _ _ (happ _ _ (happ _ _ (happ _ _ (happ _ _ ?_ ?_) ?_) ?_) ?_) hpath
  · decide
  · split <;> decide
  · decide
  · split
    · exact url.escape_no_at _ _ hhost
    · decide
  · split <;> decide

/-- Witness of C14: a configuration with no user name and a vhost, given the
passwords `secret` and `other`. -/
theorem C14_no_credentials_without_username_witness :
    ({ sampleConfig with RabbitMq :=
        { sampleConfig.RabbitMq with Username := "", Password := "secret" } }
      : Config).AmqpUrl.1 =
      ({ sampleConfig with RabbitMq :=
          { sampleConfig.RabbitMq with Username := "", Password := "other" } }
        : Config).AmqpUrl.1 ∧
    '@' ∉ ({ sampleConfig with RabbitMq :=
        { sampleConfig.RabbitMq with Username := "", Password := "secret" } }
      : Config).AmqpUrl.1.data :=
  ⟨(C14_no_credentials_without_username
      { sampleConfig with RabbitMq := { sampleConfig.RabbitMq with Username := "" } }
      "secret" "other" rfl rfl).1,
    (C14_no_credentials_without_username
      { sampleConfig with RabbitMq := { sampleConfig.RabbitMq with Username := "" } }
      "secret" "other" rfl rfl).2 (by decide)⟩

/-- Claim C15: `AmqpUrl()` returns a non-empty string and leaves it in
`RabbitMq.AmqpUrl`; when the raw field was empty the string begins with
`amqp:`, and it is `amqp:` alone when `Host`, `Port`, `Vhost`, `Username` and
`Password` are empty too. -/
theorem C15_AmqpUrl_never_empty (c : Config) :
    c.AmqpUrl.1 ≠ "" ∧
    c.AmqpUrl.2.RabbitMq.AmqpUrl = c.AmqpUrl.1 ∧
    (c.RabbitMq.AmqpUrl = "" → ∃ rest : String, c.AmqpUrl.1 = "amqp:" ++ rest) ∧
    ((c.RabbitMq.AmqpUrl = "" ∧ c.RabbitMq.Host = "" ∧ c.RabbitMq.Port = ""
        ∧ c.RabbitMq.Vhost = "" ∧ c.RabbitMq.Username = "" ∧ c.RabbitMq.Password = "") →
      c.AmqpUrl.1 = "amqp:") := by
  refine ⟨?_, ?_, ?_, ?_⟩
  · by_cases h : c.RabbitMq.AmqpUrl = ""
    · rw [AmqpUrl_of_empty c h]
      exact url.URL.string_ne_empty _ _ _ _ (by decide)
    · rw [AmqpUrl_of_set c h]
      exact h
  · by_cases h : c.RabbitMq.AmqpUrl = ""
    · rw [AmqpUrl_of_empty c h]
    · rw [AmqpUrl_of_set c h]
  · intro h
    rw [AmqpUrl_of_empty c h]
    simp only []
    rw [url.URL.string_of_scheme _ _ _ _ (by decide)]
    have e : ("amqp" : String) ++ ":" = "amqp:" := by decide
    simp only [String.append_assoc]
    rw [← String.append_assoc, e]
    exact ⟨_, rfl⟩
  · rintro ⟨h, hH, hP, hV, hU, hW⟩
    rw [AmqpUrl_of_empty c h]
    simp only [hH, hP, hV, hU, hW]
    decide

/-- Witness of C15: the zero value gets `amqp:`, and the sample configuration
a string that begins with it. -/
theorem C15_AmqpUrl_never_empty_witness :
    Config.zero.AmqpUrl.1 = "amqp:" ∧
    ∃ rest : String, sampleConfig.AmqpUrl.1 = "amqp:" ++ rest :=
  ⟨(C15_AmqpUrl_never_empty Config.zero).2.2.2 (by decide),
    (C15_AmqpUrl_never_empty sampleConfig).2.2.1 rfl⟩

/-- Claim C16: a presence check and its sentinel-normalized accessor disagree
on the sentinel only. A non-empty accessor result makes the check true, and
the check is true with an empty accessor result exactly when the raw field is
the literal `<empty>`; for the exchange name, the dead letter exchange and
the dead letter routing key alike. -/
theorem C16_presence_and_sentinel (c : Config) :
    ((c.ExchangeName ≠ "" → c.HasExchange = true) ∧
      ((c.HasExchange = true ∧ c.ExchangeName = "") ↔ c.Exchange.Name = "<empty>")) ∧
    ((c.DeadLetterExchange ≠ "" → c.HasDeadLetterExchange = true) ∧
      ((c.HasDeadLetterExchange = true ∧ c.DeadLetterExchange = "") ↔
        c.QueueSettings.DeadLetterExchange = "<empty>")) ∧
    ((c.DeadLetterRoutingKey ≠ "" → c.HasDeadLetterRouting = true) ∧
      ((c.HasDeadLetterRouting = true ∧ c.DeadLetterRoutingKey = "") ↔
        c.QueueSettings.DeadLetterRoutingKey = "<empty>")) := by
  have key : ∀ s : String,
      (transformToStringValue s ≠ "" → decide (s ≠ "") = true) ∧
      ((decide (s ≠ "") = true ∧ transformToStringValue s = "") ↔ s = "<empty>") := by
    intro s
    unfold transformToStringValue
    by_cases h : s = "<empty>"
    · subst h
      decide
    · rw [if_neg h]
      constructor
      · intro h1
        exact decide_eq_true h1
      · constructor
        · rintro ⟨h1, h2⟩
          exact absurd h2 (of_decide_eq_true h1)
        · intro h1
          exact absurd h1 h
  exact ⟨key c.Exchange.Name, key c.QueueSettings.DeadLetterExchange,
    key c.QueueSettings.DeadLetterRoutingKey⟩

/-- Witness of C16: with the sentinel as exchange name the check is true and
the accessor empty; with an ordinary dead letter exchange both agree. -/
theorem C16_presence_and_sentinel_witness :
    (({ Config.zero with Exchange := ⟨"<empty>", false, "", false⟩ } : Config).HasExchange
        = true ∧
      ({ Config.zero with Exchange := ⟨"<empty>", false, "", false⟩ } : Config).ExchangeName
        = "") ∧
    ({ Config.zero with QueueSettings := ⟨"", 0, "dlx", ""⟩ } : Config).HasDeadLetterExchange
      = true :=
  ⟨(C16_presence_and_sentinel
      { Config.zero with Exchange := ⟨"<empty>", false, "", false⟩ }).1.2.2 rfl,
    (C16_presence_and_sentinel
      { Config.zero with QueueSettings := ⟨"", 0, "dlx", ""⟩ }).2.1.1 (by decide)⟩

/-- Claim C17: `PrefetchCount()` is never 0, and it is negative exactly when
the stored `Prefetch.Count` is negative. -/
theorem C17_PrefetchCount_nonzero (c : Config) :
    c.PrefetchCount ≠ 0 ∧ (c.PrefetchCount < 0 ↔ c.Prefetch.Count < 0) := by
  unfold Config.PrefetchCount
  split <;> omega

/-- Claim C18: a true `HasMessageTTL()` does not make `MessageTTL()` positive.
A stored TTL of `2^32` gives a true check and a TTL of 0, a stored `2^31` gives
a true check and a negative TTL, and every stored TTL from 1 to `2^31 - 1`
gives a true check and a positive TTL equal to the stored one. The two large
values fit a 64-bit `int`. -/
theorem C18_MessageTTL_wraps (c : Config) :
    (c.QueueSettings.MessageTTL = 2 ^ 32 → c.HasMessageTTL = true ∧ c.MessageTTL = 0) ∧
    (c.QueueSettings.MessageTTL = 2 ^ 31 → c.HasMessageTTL = true ∧ c.MessageTTL < 0) ∧
    ((1 ≤ c.QueueSettings.MessageTTL ∧ c.QueueSettings.MessageTTL ≤ 2 ^ 31 - 1) →
      c.HasMessageTTL = true ∧ 0 < c.MessageTTL ∧
        c.MessageTTL = c.QueueSettings.MessageTTL) := by
  unfold Config.HasMessageTTL Config.MessageTTL int32
  generalize c.QueueSettings.MessageTTL = x
  have p32 : (2 : Int) ^ 32 = 4294967296 := by norm_num
  have p31 : (2 : Int) ^ 31 = 2147483648 := by norm_num
  simp only [p32, p31, decide_eq_true_eq]
  refine ⟨?_, ?_, ?_⟩
  · intro h
    subst h
    refine ⟨by omega, ?_⟩
    split <;> omega
  · intro h
    subst h
    refine ⟨by omega, ?_⟩
    split <;> omega
  · rintro ⟨h1, h2⟩
    refine ⟨by omega, ?_, ?_⟩
    · split <;> omega
    · split <;> omega

/-- Witness of C18: the stored values `2^32`, `2^31` and 60000. -/
theorem C18_MessageTTL_wraps_witness :
    (({ Config.zero with QueueSettings := ⟨"", 2 ^ 32, "", ""⟩ } : Config).HasMessageTTL = true ∧
      ({ Config.zero with QueueSettings := ⟨"", 2 ^ 32, "", ""⟩ } : Config).MessageTTL = 0) ∧
    (({ Config.zero with QueueSettings := ⟨"", 2 ^ 31, "", ""⟩ } : Config).HasMessageTTL = true ∧
      ({ Config.zero with QueueSettings := ⟨"", 2 ^ 31, "", ""⟩ } : Config).MessageTTL < 0) ∧
    (({ Config.zero with QueueSettings := ⟨"", 60000, "", ""⟩ } : Config).HasMessageTTL = true ∧
      0 < ({ Config.zero with QueueSettings := ⟨"", 60000, "", ""⟩ } : Config).MessageTTL ∧
      ({ Config.zero with QueueSettings := ⟨"", 60000, "", ""⟩ } : Config).MessageTTL = 60000) :=
  ⟨(C18_MessageTTL_wraps { Config.zero with QueueSettings := ⟨"", 2 ^ 32, "", ""⟩ }).1 rfl,
    (C18_MessageTTL_wraps { Config.zero with QueueSettings := ⟨"", 2 ^ 31, "", ""⟩ }).2.1 rfl,
    (C18_MessageTTL_wraps { Config.zero with QueueSettings := ⟨"", 60000, "", ""⟩ }).2.2
      (by decide)⟩
